import Mathlib

/-!
Shallow embedding of src/app.py (the Surreal repository): the statement
builders, record validator, query wrapper and per-operation capability
gating of the SurrealDB and SurrealDB_Table classes.

Python dicts are modelled as association lists in insertion order (real
dicts have unique keys; theorems add that as a hypothesis where it
matters).  Python exceptions that the embedded code can raise (KeyError
from data["id"], IndexError from list(data.keys())[0]) are modelled with
Except; code whose exceptions are all caught by a try/except block is
modelled as a total function returning the value of the except branch on
the failing inputs.
-/

/-- Python scalar values as they may appear in a JSON request record. -/
inductive PyVal where
  | str (s : String)
  | int (n : Int)
  | bool (b : Bool)
  | none
deriving DecidableEq

/-- Python str() rendering of a scalar, as used by f-string interpolation in app.py. -/
def PyVal.toStr : PyVal → String
  | .str s => s
  | .int n => toString n
  | .bool b => if b then "True" else "False"
  | .none => "None"

/-- Python truthiness of a scalar value. -/
def PyVal.truthy : PyVal → Bool
  | .str s => !s.data.isEmpty
  | .int n => n != 0
  | .bool b => b
  | .none => false

/-- A request record: a Python dict of field name to scalar value, in insertion order. -/
abbrev Record := List (String × PyVal)

/-- Python dict lookup without the KeyError: the value of the first binding of k, if any. -/
def Record.get? (d : Record) (k : String) : Option PyVal :=
  (d.find? (fun kv => kv.1 == k)).map (fun kv => kv.2)

/-- Python exceptions that the embedded fragments of app.py can raise. -/
inductive PyErr where
  | keyError (k : String)
  | indexError (msg : String)
deriving DecidableEq

/-- SurrealDB_Table.__validate_data from app.py, line by line: if the dict is
falsy (empty) the function falls through to return False; otherwise it
evaluates data["id"], which raises KeyError when the key is absent, and
returns True when that value is truthy, falling through to False otherwise. -/
def validate_data (data : Record) : Except PyErr Bool :=
  if data.isEmpty then Except.ok false
  else
    match data.get? "id" with
    | Option.none => Except.error (PyErr.keyError "id")
    | Option.some v => Except.ok v.truthy

/-- C1 (code bug evidence): the record validator is not the claimed total
boolean function.  validate({}) = false and validate({"id": "1"}) = true do
hold, but validate({"name": "x"}) raises KeyError("id") instead of
returning false: on a non-empty record a missing id field is a crash, not a
validation failure. -/
theorem C1_validator_truth_table :
    validate_data [] = Except.ok false
  ∧ validate_data [("id", PyVal.str "1")] = Except.ok true
  ∧ validate_data [("name", PyVal.str "x")] = Except.error (PyErr.keyError "id") :=
  ⟨rfl, rfl, rfl⟩

/-- Properties of one field of a table schema, mirroring the per-field dicts
of app.py: the declared type string, plus the optional ASSERT and VALUE
expression strings (an absent dict key is Option.none). -/
structure FieldProps where
  type : String
  assertion : Option String := Option.none
  value : Option String := Option.none
deriving DecidableEq

/-- Per-table API capability flags, mirroring the apis_enabled dict passed to
SurrealDB_Table (its default enables everything). -/
structure ApisEnabled where
  read : Bool := true
  write : Bool := true
  delete : Bool := true
  update : Bool := true
  info : Bool := true
deriving DecidableEq

/-- SurrealDB_Table: the schema data its statement builders consume — name,
fields in declaration order, strictness flag, capability flags, plus the
description used by _info.  The db handle and the Flask route registration
side effects carry no statement-building data and are modelled separately
(api_handler below). -/
structure SurrealDB_Table where
  name : String
  description : String
  fields : List (String × FieldProps)
  schemafull : Bool := false
  apis_enabled : ApisEnabled := {}
deriving DecidableEq

/-- A single-quote character as a string, written via its code point. -/
def squote : String := String.mk [Char.ofNat 39]

/-- Field part of SurrealDB_Table._create_table_statements: DEFINE FIELD with
the declared type, then the ASSERT clause when the dict has an assertion
key, then the VALUE clause when it has a value key, then the terminator. -/
def field_statement (tname fn : String) (fp : FieldProps) : String :=
  "DEFINE FIELD " ++ fn ++ " ON TABLE " ++ tname ++ " TYPE " ++ fp.type ++ " "
    ++ (match fp.assertion with
        | Option.some a => "ASSERT " ++ a ++ " "
        | Option.none => "")
    ++ (match fp.value with
        | Option.some v => "VALUE " ++ v ++ " "
        | Option.none => "")
    ++ ";"

/-- SurrealDB_Table._create_table_statements: the DEFINE TABLE statement with
the strictness keyword and terminator, then one DEFINE FIELD statement per
schema field in declaration order. -/
def create_table_statements (t : SurrealDB_Table) : List String :=
  ("DEFINE TABLE " ++ t.name ++ " "
      ++ (if t.schemafull then "SCHEMAFULL" else "SCHEMALESS") ++ ";")
    :: t.fields.map (fun fp => field_statement t.name fp.1 fp.2)

/-- SurrealDB_Table.__select_sql_statement: SELECT * FROM the table; when the
record is truthy (non-empty) it evaluates data["id"] — KeyError when the key
is absent — and, when that value is truthy, appends a colon, the value and a
trailing space. -/
def select_sql_statement (t : SurrealDB_Table) (data : Record) :
    Except PyErr (List String) :=
  let statement := "SELECT * FROM " ++ t.name
  if data.isEmpty then Except.ok [statement]
  else
    match data.get? "id" with
    | Option.none => Except.error (PyErr.keyError "id")
    | Option.some v =>
        Except.ok [if v.truthy then statement ++ ":" ++ v.toStr ++ " " else statement]

/-- SurrealDB_Table.__insert_sql_statement: the keys joined with comma-space,
then the values joined likewise, every value single-quoted by the f-string
regardless of its declared type. -/
def insert_sql_statement (t : SurrealDB_Table) (data : Record) : List String :=
  let fields := ", ".intercalate (data.map (fun kv => kv.1))
  let values := ", ".intercalate (data.map (fun kv => squote ++ kv.2.toStr ++ squote))
  ["INSERT INTO " ++ t.name ++ " (" ++ fields ++ ") VALUES (" ++ values ++ ");"]

/-- SurrealDB_Table.__delete_sql_statement: takes the first key of the record
(IndexError on an empty dict) and its value; when that key is id it builds
the DELETE statement, otherwise it returns a list holding the empty string. -/
def delete_sql_statement (t : SurrealDB_Table) (data : Record) :
    Except PyErr (List String) :=
  match data with
  | [] => Except.error (PyErr.indexError "list index out of range")
  | (k, v) :: _ =>
      if k == "id" then Except.ok ["DELETE " ++ t.name ++ ":" ++ v.toStr ++ ";"]
      else Except.ok [""]

/-- SurrealDB_Table.__update_sql_statement: joins key = quoted-value for
every non-id key, evaluates data["id"] — KeyError when the key is absent —
and builds UPDATE table:id SET with the joined pairs and the terminator. -/
def update_sql_statement (t : SurrealDB_Table) (data : Record) :
    Except PyErr (List String) :=
  let set_values :=
    ", ".intercalate
      ((data.filter (fun kv => kv.1 != "id")).map
        (fun kv => kv.1 ++ " = " ++ squote ++ kv.2.toStr ++ squote))
  match data.get? "id" with
  | Option.none => Except.error (PyErr.keyError "id")
  | Option.some v =>
      Except.ok ["UPDATE " ++ t.name ++ ":" ++ v.toStr ++ " SET " ++ set_values ++ ";"]

/-- The user table instantiated at module level in app.py. -/
def user : SurrealDB_Table where
  name := "user"
  description := "User table"
  schemafull := true
  fields :=
    [ ("name", { type := "object" })
    , ("name.first", { type := "string" })
    , ("name.last", { type := "string" })
    , ("name.full",
        { type := "string"
          value := Option.some ("name.first + \" \" + name.last") })
    , ("email",
        { type := "string"
          assertion := Option.some "is::email($value)" })
    , ("password", { type := "string" }) ]
  apis_enabled := { read := true, write := true, delete := true, update := true, info := true }

/-- Outcome of posting a statement to the store and parsing the HTTP
response: a transport or JSON failure carrying the exception text, or the
parsed list of result objects, each kept as its serialised JSON text. -/
inductive StoreResponse where
  | fail (msg : String)
  | results (rs : List String)
deriving DecidableEq

/-- Return value of SurrealDB.query: either json.dumps of the first result
element, or the error dict built in the except branch (keys error, query
and exception). -/
inductive QueryOutput where
  | json (s : String)
  | errorDict (error q exc : String)
deriving DecidableEq

/-- SurrealDB.query from app.py: posts the statement and returns json.dumps
of response.json()[0].  Every exception inside the try block — the transport
or JSON failure, and the IndexError raised by indexing an empty result list
— is caught by the bare except and turned into the error dict, so the
function is total. -/
def SurrealDB_query (resp : StoreResponse) (q : String) : QueryOutput :=
  match resp with
  | StoreResponse.fail msg => QueryOutput.errorDict "Error in query" q msg
  | StoreResponse.results [] =>
      QueryOutput.errorDict "Error in query" q "list index out of range"
  | StoreResponse.results (r :: _) => QueryOutput.json r

/-- Value returned by a table operation handler: the query wrapper output,
or a bare error dict built inside the handler itself. -/
inductive ApiResult where
  | query (o : QueryOutput)
  | errorDict (msg : String)
deriving DecidableEq

/-- SurrealDB_Table.read: db.query of element 0 of the select statement
list.  The second component of the pair is the trace of statements handed
to the store by this call. -/
def table_read (t : SurrealDB_Table) (resp : StoreResponse) (data : Record) :
    Except PyErr (ApiResult × List String) :=
  match select_sql_statement t data with
  | Except.error e => Except.error e
  | Except.ok [] => Except.error (PyErr.indexError "list index out of range")
  | Except.ok (s :: _) => Except.ok (ApiResult.query (SurrealDB_query resp s), [s])

/-- SurrealDB_Table.write: db.query of element 0 of the insert statement list. -/
def table_write (t : SurrealDB_Table) (resp : StoreResponse) (data : Record) :
    Except PyErr (ApiResult × List String) :=
  match insert_sql_statement t data with
  | [] => Except.error (PyErr.indexError "list index out of range")
  | s :: _ => Except.ok (ApiResult.query (SurrealDB_query resp s), [s])

/-- SurrealDB_Table.delete: runs __validate_data (which may raise KeyError),
then either db.query of element 0 of the delete statement list or the fixed
invalid-data error dict. -/
def table_delete (t : SurrealDB_Table) (resp : StoreResponse) (data : Record) :
    Except PyErr (ApiResult × List String) :=
  match validate_data data with
  | Except.error e => Except.error e
  | Except.ok true =>
      match delete_sql_statement t data with
      | Except.error e => Except.error e
      | Except.ok [] => Except.error (PyErr.indexError "list index out of range")
      | Except.ok (s :: _) => Except.ok (ApiResult.query (SurrealDB_query resp s), [s])
  | Except.ok false =>
      Except.ok (ApiResult.errorDict "Invalid data, must contain an id", [])

/-- SurrealDB_Table.update: runs __validate_data, then either db.query of
element 0 of the update statement list or the fixed invalid-data error dict. -/
def table_update (t : SurrealDB_Table) (resp : StoreResponse) (data : Record) :
    Except PyErr (ApiResult × List String) :=
  match validate_data data with
  | Except.error e => Except.error e
  | Except.ok true =>
      match update_sql_statement t data with
      | Except.error e => Except.error e
      | Except.ok [] => Except.error (PyErr.indexError "list index out of range")
      | Except.ok (s :: _) => Except.ok (ApiResult.query (SurrealDB_query resp s), [s])
  | Except.ok false =>
      Except.ok (ApiResult.errorDict "Invalid data, must contain an id", [])

/-- Kinds of CRUD operations routed per table. -/
inductive OpKind where
  | read
  | write
  | delete
  | update
deriving DecidableEq

/-- Capability flag consulted for an operation kind when its route is registered. -/
def ApisEnabled.flag (a : ApisEnabled) : OpKind → Bool
  | OpKind.read => a.read
  | OpKind.write => a.write
  | OpKind.delete => a.delete
  | OpKind.update => a.update

/-- Route registration of SurrealDB_Table.__init__: for each operation, when
its flag is enabled the registered handler runs the operation on the posted
record; when disabled the registered handler is the constant lambda that
ignores payload and store and returns the fixed error dict, so nothing is
built or executed. -/
def api_handler (t : SurrealDB_Table) (op : OpKind) (resp : StoreResponse)
    (data : Record) : Except PyErr (ApiResult × List String) :=
  if t.apis_enabled.flag op then
    match op with
    | OpKind.read => table_read t resp data
    | OpKind.write => table_write t resp data
    | OpKind.delete => table_delete t resp data
    | OpKind.update => table_update t resp data
  else Except.ok (ApiResult.errorDict "API route not available", [])

/-- Boolean prefix test on character lists, by structural recursion. -/
def list_begins : List Char → List Char → Bool
  | _, [] => true
  | [], _ :: _ => false
  | c :: cs, d :: ds => (c == d) && list_begins cs ds

/-- Boolean test that p is a prefix of s. -/
def str_begins (s p : String) : Bool := list_begins s.data p.data

/-- Boolean test that p is a suffix of s. -/
def str_ends (s p : String) : Bool := list_begins s.data.reverse p.data.reverse

theorem data_append (a b : String) : (a ++ b).data = a.data ++ b.data := by
  cases a; cases b; rfl

theorem data_nil : ("" : String).data = [] := rfl

theorem str_eq_of_data {a b : String} (h : a.data = b.data) : a = b := by
  cases a; cases b; exact congrArg String.mk h

theorem list_begins_self_append (l r : List Char) : list_begins (l ++ r) l = true := by
  induction l with
  | nil => simp [list_begins]
  | cons c cs ih => simp [list_begins, ih]

theorem list_begins_of_append {s p : List Char} (r : List Char) (h : s = p ++ r) :
    list_begins s p = true := by
  subst h; exact list_begins_self_append p r

theorem str_begins_append (a b : String) : str_begins (a ++ b) a = true :=
  list_begins_of_append b.data (by simp [data_append])

theorem str_ends_append (a b : String) : str_ends (a ++ b) b = true :=
  list_begins_of_append a.data.reverse (by simp [data_append, List.reverse_append])

theorem str_begins_append3 (a b c : String) : str_begins (a ++ b ++ c) a = true :=
  list_begins_of_append (b.data ++ c.data) (by simp [data_append])

theorem str_ends_append3 (a b c : String) : str_ends (a ++ b ++ c) (b ++ c) = true :=
  list_begins_of_append a.data.reverse (by simp [data_append, List.reverse_append])

theorem string_append_assoc (a b c : String) : a ++ b ++ c = a ++ (b ++ c) :=
  str_eq_of_data (by simp [data_append])

theorem string_append_empty (s : String) : s ++ "" = s :=
  str_eq_of_data (by simp [data_append, data_nil])

/-- C2 (code bug evidence): the delete statement builder does not fail on a
record whose first key is not id — it returns a list holding the empty
string, which SurrealDB_Table.delete then forwards to the store.  The
second conjunct shows the same silent outcome for a record that passes the
id validation gate but whose first key is not id. -/
theorem C2_delete_returns_empty_statement :
    delete_sql_statement user [("name", PyVal.str "x")] = Except.ok [""]
  ∧ delete_sql_statement user [("name", PyVal.str "x"), ("id", PyVal.str "1")]
      = Except.ok [""] :=
  ⟨rfl, rfl⟩

/-- C3 counterexample: for the user table of app.py, the first definition
statement is DEFINE TABLE user SCHEMAFULL; — it does not begin with the
table name, contrary to the claim as stated. -/
theorem C3_counterexample :
    str_begins ((create_table_statements user).headD "") user.name = false := by
  decide

/-- C3 (amended): the definition-statement sequence has the table-definition
statement first — beginning with the fixed prefix DEFINE TABLE followed by
the table name, and ending with the strictness keyword followed by the
terminator — then exactly one field-definition statement per schema field
in schema order (field_statement renders the fixed clause order type,
assertion, value), and the terminator is appended to every element. -/
theorem C3_definition_statements (t : SurrealDB_Table) :
    (create_table_statements t).length = t.fields.length + 1
  ∧ str_begins ((create_table_statements t).headD "")
      ("DEFINE TABLE " ++ t.name ++ " ") = true
  ∧ str_ends ((create_table_statements t).headD "")
      ((if t.schemafull then "SCHEMAFULL" else "SCHEMALESS") ++ ";") = true
  ∧ (create_table_statements t).tail
      = t.fields.map (fun fp => field_statement t.name fp.1 fp.2)
  ∧ ∀ s ∈ create_table_statements t, str_ends s ";" = true := by
  refine ⟨by simp [create_table_statements], ?_, ?_, rfl, ?_⟩
  · exact str_begins_append3 ("DEFINE TABLE " ++ t.name ++ " ") _ ";"
  · exact str_ends_append3 ("DEFINE TABLE " ++ t.name ++ " ") _ ";"
  · intro s hs
    rcases List.mem_cons.mp hs with h | h
    · subst h; exact str_ends_append _ ";"
    · rcases List.mem_map.mp h with ⟨fp, _, hfe⟩
      subst hfe
      exact str_ends_append _ ";"

/-- C4: the insert statement lists every key of the record exactly once, in
iteration order, pairing the i-th key positionally with the i-th value, and
every value is rendered single-quoted regardless of declared type.  The
first conjunct exhibits the statement as the two comma-joined lists mapped
off the record in order; the second gives the exactly-once key count, using
the unique-keys invariant of Python dicts. -/
theorem C4_insert_statement (t : SurrealDB_Table) (R : Record) (hne : R ≠ [])
    (hnd : (R.map Prod.fst).Nodup) :
    insert_sql_statement t R =
      ["INSERT INTO " ++ t.name ++ " ("
        ++ ", ".intercalate (R.map Prod.fst)
        ++ ") VALUES ("
        ++ ", ".intercalate (R.map (fun kv => squote ++ kv.2.toStr ++ squote))
        ++ ");"]
  ∧ ∀ k ∈ R.map Prod.fst, (R.map Prod.fst).count k = 1 :=
  have _ := hne
  ⟨rfl, fun _ hk => List.count_eq_one_of_mem hnd hk⟩

theorem C4_insert_statement_witness :
    ([("email", PyVal.str "a@b.com"), ("password", PyVal.str "x")] : Record) ≠ []
  ∧ (([("email", PyVal.str "a@b.com"), ("password", PyVal.str "x")] : Record).map
      Prod.fst).Nodup
  ∧ (insert_sql_statement user
        [("email", PyVal.str "a@b.com"), ("password", PyVal.str "x")] =
      ["INSERT INTO " ++ user.name ++ " ("
        ++ ", ".intercalate
            (([("email", PyVal.str "a@b.com"), ("password", PyVal.str "x")] :
              Record).map Prod.fst)
        ++ ") VALUES ("
        ++ ", ".intercalate
            (([("email", PyVal.str "a@b.com"), ("password", PyVal.str "x")] :
              Record).map (fun kv => squote ++ kv.2.toStr ++ squote))
        ++ ");"]
     ∧ ∀ k ∈ ([("email", PyVal.str "a@b.com"), ("password", PyVal.str "x")] :
          Record).map Prod.fst,
        (([("email", PyVal.str "a@b.com"), ("password", PyVal.str "x")] :
          Record).map Prod.fst).count k = 1) :=
  ⟨by decide, by decide,
    C4_insert_statement user
      [("email", PyVal.str "a@b.com"), ("password", PyVal.str "x")]
      (by decide) (by decide)⟩

/-- C5 counterexample: on the record with no fields the insert builder does
not fail — it produces the degenerate statement with empty field and value
lists. -/
theorem C5_counterexample :
    insert_sql_statement user [] = ["INSERT INTO user () VALUES ();"] := by
  decide

/-- C5 (amended): given a record with no fields, the insert statement
builder of every table emits INSERT INTO table () VALUES (); rather than
failing — no EmptyRecordError exists anywhere in the code. -/
theorem C5_empty_record_insert (t : SurrealDB_Table) :
    insert_sql_statement t [] = ["INSERT INTO " ++ t.name ++ " () VALUES ();"] := by
  show ["INSERT INTO " ++ t.name ++ " (" ++ "" ++ ") VALUES (" ++ "" ++ ");"]
      = ["INSERT INTO " ++ t.name ++ " () VALUES ();"]
  simp only [string_append_empty]
  rw [string_append_assoc ("INSERT INTO " ++ t.name ++ " (") ") VALUES (" ");"]
  rw [string_append_assoc ("INSERT INTO " ++ t.name) " (" (") VALUES (" ++ ");")]
  have hlit : (" (" ++ (") VALUES (" ++ ");") : String) = " () VALUES ();" := by decide
  rw [hlit]

theorem intercalate_nil (s : String) : s.intercalate [] = "" := rfl

/-- C6 counterexample: with an id supplied, the select builder emits the
statement with a trailing space after the id, so the output is not exactly
SELECT * FROM table:id as claimed. -/
theorem C6_counterexample :
    select_sql_statement user [("id", PyVal.str "1")]
      = Except.ok ["SELECT * FROM user:1 "]
  ∧ ("SELECT * FROM user:1 " : String) ≠ "SELECT * FROM user:1" :=
  ⟨rfl, by decide⟩

/-- C6 (amended): the select builder returns exactly SELECT * FROM table
when the record is empty, and exactly SELECT * FROM table:id followed by a
trailing space when the record holds a truthy id.  (A non-empty record
without an id key instead raises KeyError, and a falsy id yields the base
statement.) -/
theorem C6_select_statement (t : SurrealDB_Table) (data : Record) (v : PyVal)
    (h1 : data.get? "id" = Option.some v) (h2 : v.truthy = true) :
    select_sql_statement t data
      = Except.ok ["SELECT * FROM " ++ t.name ++ ":" ++ v.toStr ++ " "]
  ∧ select_sql_statement t [] = Except.ok ["SELECT * FROM " ++ t.name] := by
  constructor
  · cases data with
    | nil => simp [Record.get?] at h1
    | cons kv rest => simp [select_sql_statement, h1, h2]
  · rfl

theorem C6_select_statement_witness :
    Record.get? [("id", PyVal.str "1")] "id" = Option.some (PyVal.str "1")
  ∧ (PyVal.str "1").truthy = true
  ∧ (select_sql_statement user [("id", PyVal.str "1")]
      = Except.ok ["SELECT * FROM " ++ user.name ++ ":" ++ (PyVal.str "1").toStr ++ " "]
     ∧ select_sql_statement user [] = Except.ok ["SELECT * FROM " ++ user.name]) :=
  ⟨by decide, by decide,
    C6_select_statement user [("id", PyVal.str "1")] (PyVal.str "1")
      (by decide) (by decide)⟩

/-- C7 (code bug evidence): the operation boundary does let a raw exception
escape.  Invoking read, or delete, on the user table with the payload
containing only a name field makes the statement builder or validator
evaluate data["id"], and the resulting KeyError propagates out of the
handler uncaught instead of becoming a structured error response. -/
theorem C7_keyerror_escapes :
    api_handler user OpKind.read (StoreResponse.results [])
      [("name", PyVal.str "x")] = Except.error (PyErr.keyError "id")
  ∧ api_handler user OpKind.delete (StoreResponse.results [])
      [("name", PyVal.str "x")] = Except.error (PyErr.keyError "id") :=
  ⟨rfl, rfl⟩

/-- C8 counterexample: on an empty result sequence the query wrapper
returns the same generic catch-all error dict — error key Error in query,
exception text of the caught IndexError — that any other failure produces
(second conjunct: a transport failure yields the identically shaped dict).
No distinct EmptyResponseError is surfaced anywhere. -/
theorem C8_counterexample :
    SurrealDB_query (StoreResponse.results []) "SELECT * FROM user"
      = QueryOutput.errorDict "Error in query" "SELECT * FROM user"
          "list index out of range"
  ∧ SurrealDB_query (StoreResponse.fail "connection refused") "SELECT * FROM user"
      = QueryOutput.errorDict "Error in query" "SELECT * FROM user"
          "connection refused" :=
  ⟨rfl, rfl⟩

/-- C8 (amended): when the store returns zero result elements the core does
not crash — the IndexError from the unguarded first-element access is
caught by the bare except — and the caller receives the generic structured
error dict for the query, not a distinct EmptyResponseError. -/
theorem C8_empty_response (q : String) :
    SurrealDB_query (StoreResponse.results []) q
      = QueryOutput.errorDict "Error in query" q "list index out of range" :=
  rfl

/-- C9: when the capability flag of an operation is disabled for a table,
every invocation of that operation returns the fixed error dict — the
handler registered at construction is the constant error lambda — with an
empty execution trace: no statement is built or handed to the store, for
any payload and any store behaviour. -/
theorem C9_disabled_capability (t : SurrealDB_Table) (op : OpKind)
    (resp : StoreResponse) (data : Record)
    (h : t.apis_enabled.flag op = false) :
    api_handler t op resp data
      = Except.ok (ApiResult.errorDict "API route not available", []) := by
  simp [api_handler, h]

/-- The user table with the delete capability turned off (spec scenario D). -/
def user_no_delete : SurrealDB_Table :=
  { user with apis_enabled := { user.apis_enabled with delete := false } }

theorem C9_disabled_capability_witness :
    user_no_delete.apis_enabled.flag OpKind.delete = false
  ∧ api_handler user_no_delete OpKind.delete (StoreResponse.results [])
      [("id", PyVal.str "1")]
      = Except.ok (ApiResult.errorDict "API route not available", []) :=
  ⟨by decide,
    C9_disabled_capability user_no_delete OpKind.delete (StoreResponse.results [])
      [("id", PyVal.str "1")] (by decide)⟩

/-- C10: a record holding an id and no other field still yields a built
update statement — the SET list is empty and the statement ends in SET
followed by the terminator — rather than any failure. -/
theorem C10_empty_set_update (t : SurrealDB_Table) (data : Record) (v : PyVal)
    (h1 : data.get? "id" = Option.some v)
    (h2 : data.filter (fun kv => kv.1 != "id") = []) :
    update_sql_statement t data
      = Except.ok ["UPDATE " ++ t.name ++ ":" ++ v.toStr ++ " SET ;"] := by
  simp only [update_sql_statement, h1, h2, List.map_nil, intercalate_nil]
  simp only [string_append_empty]
  rw [string_append_assoc ("UPDATE " ++ t.name ++ ":" ++ v.toStr) " SET " ";"]
  have hlit : (" SET " ++ ";" : String) = " SET ;" := by decide
  rw [hlit]

theorem C10_empty_set_update_witness :
    Record.get? [("id", PyVal.str "1")] "id" = Option.some (PyVal.str "1")
  ∧ ([("id", PyVal.str "1")] : Record).filter (fun kv => kv.1 != "id") = []
  ∧ update_sql_statement user [("id", PyVal.str "1")]
      = Except.ok ["UPDATE " ++ user.name ++ ":" ++ (PyVal.str "1").toStr ++ " SET ;"] :=
  ⟨by decide, by decide,
    C10_empty_set_update user [("id", PyVal.str "1")] (PyVal.str "1")
      (by decide) (by decide)⟩


